import Mathlib

/-!
Verification development for the ROLLodex / Brand Central backend
(`brandcentral-fresh`, `frontend/src/App.js` holding the Express server).

The embedding follows the source routes closely: each definition carries a doc
comment naming the route or helper it translates.
-/

namespace Rollodex

/-- JavaScript `a || b` on an optional environment string: an unset or empty
variable falls back to the default (empty strings are falsy in JS). -/
def jsOr (v : Option String) (d : String) : String :=
  match v with
  | some s => if s.data.isEmpty then d else s
  | none => d

/-- Whitespace-stripping on both ends over the character list, modelling
JS `trim()` and the express-validator trim sanitizer. -/
def trimChars (cs : List Char) : List Char :=
  ((cs.dropWhile Char.isWhitespace).reverse.dropWhile Char.isWhitespace).reverse

/-- String version of `trimChars`. -/
def strTrim (s : String) : String := ⟨trimChars s.data⟩

/-- Character-list version of a prefix test, used to model JS
`String.prototype.includes`. -/
def charsStart : List Char → List Char → Bool
  | [], _ => true
  | _ :: _, [] => false
  | p :: ps, c :: cs => p = c && charsStart ps cs

/-- Does the pattern occur as a contiguous substring of the text? -/
def charsOccur (pat : List Char) : List Char → Bool
  | [] => pat.isEmpty
  | c :: cs => charsStart pat (c :: cs) || charsOccur pat cs

/-- JS `s.includes(sub)`: substring containment test, as used by
the role checks of the form `req.user.role.includes(..)` on the strings admin and retailer. -/
def strIncludes (s sub : String) : Bool := charsOccur sub.data s.data

/-- JS truthiness-plus-trim test `field && field.trim().length > 0` on an
optional string field (absent fields are falsy). -/
def optFilled : Option String → Bool
  | some s => !(trimChars s.data).isEmpty
  | none => false

/-- JS `Math.round (num / den * 100)` for natural `num ≤ den`, `den ≠ 0`:
half-up rounding of `100 * num / den`, computed exactly over naturals as
`⌊(200 * num + den) / (2 * den)⌋`. -/
def jsRoundPct (num den : Nat) : Nat := (200 * num + den) / (2 * den)

/-- Lexicographic (byte-order) comparison of character lists, modelling the
SQL collation order on the VARCHAR values involved (all plain lowercase
ASCII, where every standard collation agrees with byte order). -/
def charsLt : List Char → List Char → Bool
  | [], [] => false
  | [], _ :: _ => true
  | _ :: _, [] => false
  | a :: as, b :: bs =>
    if a.val < b.val then true
    else if b.val < a.val then false
    else charsLt as bs

/-- SQL `<` on VARCHAR values, for `ORDER BY` on string columns. -/
def sqlStrLt (a b : String) : Bool := charsLt a.data b.data

end Rollodex

namespace Rollodex

/-- Identity payload carried in the JWT, as built at
`POST /api/auth/login` (App.js:591-601) and `POST /api/auth/register`
(App.js:688-698): user id, email, role, company name, company type. -/
structure Identity where
  id : Nat
  email : String
  role : String
  companyName : Option String
  companyType : Option String
deriving DecidableEq, Repr

/-- Shallow model of a signed JWT: the payload, the key it was signed
with, and the issue time in seconds.  `jwt.sign` with a 24h expiry
records the issue time; `jwt.verify` recomputes the signature with its own
key and checks expiry, so verification succeeds exactly when the keys
match and the token is not expired. -/
structure Token where
  payload : Identity
  key : String
  iat : Nat
deriving DecidableEq, Repr

/-- Token lifetime: the 24h expiresIn option (App.js:600, 697), in seconds. -/
def tokenLifetime : Nat := 24 * 60 * 60

/-- Model of `jwt.sign` with the 24h expiresIn option. -/
def jwtSign (payload : Identity) (key : String) (now : Nat) : Token :=
  ⟨payload, key, now⟩

/-- Model of `jwt.verify(token, key, cb)`: succeeds with the payload iff
the verification key equals the signing key and the token is unexpired. -/
def jwtVerify (t : Token) (key : String) (now : Nat) : Option Identity :=
  if t.key = key ∧ now < t.iat + tokenLifetime then some t.payload else none

/-- Signing key used by login and register:
`process.env.JWT_SECRET` with fallback literal rollodex-secret-key (App.js:599, 696). -/
def signSecret (jwtSecretEnv : Option String) : String :=
  jsOr jwtSecretEnv "rollodex-secret-key"

/-- Verification key used by the `authenticateToken` middleware:
`process.env.JWT_SECRET` with fallback literal rollodx-secret-key (App.js:178) — note the
fallback literal differs from the signing fallback by a missing `e`. -/
def verifySecret (jwtSecretEnv : Option String) : String :=
  jsOr jwtSecretEnv "rollodx-secret-key"

/-- Verify step of the `authenticateToken` middleware (App.js:178-188). -/
def authenticate (t : Token) (jwtSecretEnv : Option String) (now : Nat) :
    Option Identity :=
  jwtVerify t (verifySecret jwtSecretEnv) now

/-- Startup (App.js:1597-1610) performs no validation of `JWT_SECRET`
against `NODE_ENV`: the server accepts every configuration, production
included; it only logs the environment. -/
def startupAccepts (_nodeEnv _jwtSecretEnv : Option String) : Bool := true

end Rollodex

namespace Rollodex

/-- Row of the `users` table (App.js:224-242).  Timestamps are seconds;
`password_hash` stores the modelled bcrypt output. -/
structure User where
  id : Nat
  email : String
  password_hash : String
  first_name : String
  last_name : String
  role : String
  company_name : Option String
  company_type : Option String
  phone : Option String
  title : Option String
  is_active : Bool
  email_verified : Bool
  last_login : Option Nat
deriving DecidableEq, Repr

/-- Row of the `brands` table (App.js:245-268).  The `settings` JSONB
column (never read or written by any route) and `logo_url`, `is_verified`
and the created timestamp (not involved in any claim under study) are
omitted; `name` is NOT NULL, the other text columns are nullable. -/
structure Brand where
  id : Nat
  name : String
  description : Option String
  industry : Option String
  website : Option String
  email : Option String
  phone : Option String
  address : Option String
  city : Option String
  state : Option String
  country : Option String
  postal_code : Option String
  profile_completion_score : Nat
  is_public : Bool
  owner_id : Nat
deriving DecidableEq, Repr

/-- Row of the `retailers` table (App.js:271-291), reduced to the columns
the register route writes. -/
structure Retailer where
  id : Nat
  name : String
  description : Option String
  owner_id : Nat
deriving DecidableEq, Repr

/-- Row of `brand_retailer_relationships` (App.js:294-309).  `priority`
and `status` are VARCHAR columns; `updated_at` is seconds. -/
structure RelRow where
  id : Nat
  brand_id : Nat
  retailer_id : Nat
  status : String
  partnership_type : Option String
  started_date : Option Nat
  notes : Option String
  priority : String
  created_by : Nat
  updated_at : Nat
deriving DecidableEq, Repr

/-- Row of `brand_assets` (App.js:330-349), without the derived
`file_path`, `file_url` and `download_count` columns (not involved in any
claim under study). -/
structure Asset where
  id : Nat
  brand_id : Nat
  filename : String
  original_name : String
  file_type : String
  file_size : Nat
  description : Option String
  category : String
  permission_level : String
  is_featured : Bool
  uploaded_by : Nat
  created_at : Nat
deriving DecidableEq, Repr

/-- Row of `activity_log` (App.js:352-364), reduced to user and action;
the table is write-only in the program. -/
structure ActivityEntry where
  user_id : Nat
  action : String
deriving DecidableEq, Repr

/-- Database state: one list per table, plus the SERIAL counters that
assign fresh primary keys.  A `notification_preferences` row holds only
database-side default booleans, so it is recorded by its `user_id`.  The
`brand_products` table is read but never written by the routes modelled
here and takes part in no claim, so it is omitted. -/
structure DB where
  users : List User
  brands : List Brand
  retailers : List Retailer
  notifPrefUsers : List Nat
  relationships : List RelRow
  assets : List Asset
  activity : List ActivityEntry
  nextUserId : Nat
  nextBrandId : Nat
  nextRetailerId : Nat
  nextRelId : Nat
  nextAssetId : Nat
deriving DecidableEq, Repr

/-- The schema right after `initDatabase` on a fresh database, before demo
seeding: all tables empty, SERIAL counters at 1. -/
def emptyDB : DB :=
  ⟨[], [], [], [], [], [], [], 1, 1, 1, 1, 1⟩

/-- Error response as produced by the routes: HTTP status, `error` body
field, optional machine-readable `code` field. -/
structure ErrResp where
  status : Nat
  error : String
  code : Option String
deriving DecidableEq, Repr

/-- Public user view returned by login and register (password hash never
included). -/
structure UserView where
  id : Nat
  email : String
  firstName : String
  lastName : String
  role : String
  companyName : Option String
  companyType : Option String
  phone : Option String
  title : Option String
  emailVerified : Bool
deriving DecidableEq, Repr

/-- Success body of login and register: signed token plus user view. -/
structure AuthOk where
  token : Token
  user : UserView
deriving DecidableEq, Repr

/-- Model of `bcrypt.hash(password, 12)` as an injective tagging of the
password (the claims under study depend only on hash equality testing). -/
def bcryptHash (password : String) : String := "bcrypt12$" ++ password

/-- Model of `bcrypt.compare(password, hash)`. -/
def bcryptCompare (password hash : String) : Bool := hash = bcryptHash password

/-- Abstraction of the express-validator `isEmail` check: the string
contains an `@` that is neither first nor last.  Only the pass/fail gate
matters to the claims under study. -/
def validEmail (s : String) : Bool :=
  s.data.contains (Char.ofNat 64) && s.data.head? != some (Char.ofNat 64) &&
  s.data.getLast? != some (Char.ofNat 64)

/-- Abstraction of the express-validator `normalizeEmail` sanitizer:
lower-cases the address. -/
def normalizeEmail (s : String) : String := ⟨s.data.map Char.toLower⟩

end Rollodex

namespace Rollodex

/-- Option.map trim: sanitizer of the express-validator `.trim()` calls. -/
def trimOpt (v : Option String) : Option String := v.map strTrim

/-- SQL `COALESCE(new, old)` over nullable columns. -/
def coalesce {α : Type} (new old : Option α) : Option α :=
  match new with
  | some v => some v
  | none => old

/-- JS `v || null`: empty string and undefined both become null. -/
def jsOrNull (v : Option String) : Option String :=
  match v with
  | some s => if s.data.isEmpty then none else some s
  | none => none

/-- JS destructuring default `v = d`: applies only when the field is
undefined (an empty string stays). -/
def jsDefault (v : Option String) (d : String) : String := v.getD d

/-- Public user view of a stored row, as assembled by the login route. -/
def viewOf (u : User) : UserView :=
  ⟨u.id, u.email, u.first_name, u.last_name, u.role, u.company_name,
   u.company_type, u.phone, u.title, u.email_verified⟩

/-- JWT payload for a stored user row (App.js:592-598). -/
def identityOf (u : User) : Identity :=
  ⟨u.id, u.email, u.role, u.company_name, u.company_type⟩

/-- POST /api/auth/login (App.js:551-630): validate, look up the active
user by email, compare passwords, update last login, sign the token.
Both failure branches answer 401 with the same body. -/
def login (db : DB) (emailRaw password : String) (env : Option String)
    (now : Nat) : (ErrResp ⊕ AuthOk) × DB :=
  if !(validEmail emailRaw && decide (1 ≤ password.length)) then
    (Sum.inl ⟨400, "Validation failed", none⟩, db)
  else
    match (db.users.filter
        (fun u => u.email == normalizeEmail emailRaw && u.is_active)).head? with
    | none => (Sum.inl ⟨401, "Invalid credentials", some "INVALID_CREDENTIALS"⟩, db)
    | some u =>
      if !bcryptCompare password u.password_hash then
        (Sum.inl ⟨401, "Invalid credentials", some "INVALID_CREDENTIALS"⟩,
          { db with activity := db.activity ++ [⟨u.id, "LOGIN_FAILED"⟩] })
      else
        (Sum.inr ⟨jwtSign (identityOf u) (signSecret env) now, viewOf u⟩,
          { db with
            users := db.users.map
              (fun v => if v.id == u.id then { v with last_login := some now } else v),
            activity := db.activity ++ [⟨u.id, "LOGIN_SUCCESS"⟩] })

/-- The three INSERT statements the register route runs, in order
(App.js:663-686): the user row, the companion profile row, the
notification-preferences row. -/
inductive RegStep
  | userRow
  | profileRow
  | prefsRow
deriving DecidableEq, Repr

/-- Request body of POST /api/auth/register. -/
structure RegisterInput where
  email : String
  password : String
  firstName : String
  lastName : String
  companyName : String
  companyType : String
  phone : Option String
  title : Option String
deriving DecidableEq, Repr

/-- Validation chain of the register route (App.js:632-638). -/
def registerValid (inp : RegisterInput) : Bool :=
  validEmail inp.email && decide (6 ≤ inp.password.length) &&
  decide (1 ≤ (strTrim inp.firstName).length) && decide (1 ≤ (strTrim inp.lastName).length) &&
  decide (1 ≤ (strTrim inp.companyName).length) &&
  (inp.companyType == "retailer" || inp.companyType == "brand")

/-- POST /api/auth/register (App.js:632-727).  The route issues its three
INSERT statements sequentially on the pool with no surrounding
transaction; `ins` records which INSERTs succeed (an INSERT can fail at
runtime: lost connection, constraint race).  A failing INSERT throws, the
catch block answers 500, and rows already inserted stay — there is no
rollback. -/
def register (db : DB) (inp : RegisterInput) (ins : RegStep → Bool)
    (env : Option String) (now : Nat) : (ErrResp ⊕ AuthOk) × DB :=
  if !registerValid inp then
    (Sum.inl ⟨400, "Validation failed", none⟩, db)
  else
    if db.users.any (fun u => u.email == normalizeEmail inp.email) then
      (Sum.inl ⟨400, "An account with this email already exists", some "EMAIL_EXISTS"⟩, db)
    else if !ins RegStep.userRow then
      (Sum.inl ⟨500, "Registration failed", some "SERVER_ERROR"⟩, db)
    else
      let email := normalizeEmail inp.email
      let role := if inp.companyType == "retailer" then "retailer_admin" else "brand_admin"
      let uid := db.nextUserId
      let cname := strTrim inp.companyName
      let newUser : User :=
        { id := uid, email := email, password_hash := bcryptHash inp.password,
          first_name := strTrim inp.firstName, last_name := strTrim inp.lastName,
          role := role, company_name := some cname,
          company_type := some inp.companyType, phone := inp.phone,
          title := inp.title, is_active := true, email_verified := false,
          last_login := none }
      let db1 := { db with users := db.users ++ [newUser], nextUserId := uid + 1 }
      if !ins RegStep.profileRow then
        (Sum.inl ⟨500, "Registration failed", some "SERVER_ERROR"⟩, db1)
      else
        let db2 :=
          if inp.companyType == "retailer" then
            { db1 with
              retailers := db1.retailers ++
                [⟨db1.nextRetailerId, cname, some ("Retailer profile for " ++ cname), uid⟩],
              nextRetailerId := db1.nextRetailerId + 1 }
          else
            { db1 with
              brands := db1.brands ++
                [{ id := db1.nextBrandId, name := cname,
                   description := some ("Brand profile for " ++ cname),
                   industry := none, website := none, email := none, phone := none,
                   address := none, city := none, state := none, country := none,
                   postal_code := none, profile_completion_score := 25,
                   is_public := true, owner_id := uid }],
              nextBrandId := db1.nextBrandId + 1 }
        if !ins RegStep.prefsRow then
          (Sum.inl ⟨500, "Registration failed", some "SERVER_ERROR"⟩, db2)
        else
          (Sum.inr
            ⟨jwtSign ⟨uid, email, role, some cname, some inp.companyType⟩ (signSecret env) now,
             ⟨uid, email, strTrim inp.firstName, strTrim inp.lastName, role, some cname,
              some inp.companyType, inp.phone, inp.title, false⟩⟩,
           { db2 with notifPrefUsers := db2.notifPrefUsers ++ [uid],
                      activity := db2.activity ++ [⟨uid, "USER_REGISTERED"⟩] })

/-- Request body of PUT /api/users/profile. -/
structure ProfileUpdate where
  firstName : Option String
  lastName : Option String
  phone : Option String
  title : Option String
deriving DecidableEq, Repr

/-- Validation chain of the profile update route (App.js:774-778). -/
def profileUpdateValid (p : ProfileUpdate) : Bool :=
  (match p.firstName with | some s => decide (1 ≤ (strTrim s).length) | none => true) &&
  (match p.lastName with | some s => decide (1 ≤ (strTrim s).length) | none => true)

/-- COALESCE merge of the profile UPDATE (App.js:791-800), applied to one
user row. -/
def applyProfileUpdate (u : User) (p : ProfileUpdate) : User :=
  { u with first_name := (trimOpt p.firstName).getD u.first_name,
           last_name := (trimOpt p.lastName).getD u.last_name,
           phone := coalesce (trimOpt p.phone) u.phone,
           title := coalesce (trimOpt p.title) u.title }

/-- PUT /api/users/profile (App.js:774-836). -/
def updateProfile (db : DB) (userId : Nat) (p : ProfileUpdate) :
    (ErrResp ⊕ UserView) × DB :=
  if !profileUpdateValid p then
    (Sum.inl ⟨400, "Validation failed", none⟩, db)
  else
    match (db.users.filter (fun u => u.id == userId)).head? with
    | none => (Sum.inl ⟨404, "User not found", some "USER_NOT_FOUND"⟩, db)
    | some u =>
      (Sum.inr (viewOf (applyProfileUpdate u p)),
       { db with
         users := db.users.map
           (fun v => if v.id == userId then applyProfileUpdate v p else v),
         activity := db.activity ++ [⟨userId, "PROFILE_UPDATED"⟩] })

end Rollodex

namespace Rollodex

/-- Request body of PUT /api/brands/:id (App.js:1011): the eleven COALESCE
columns. -/
structure BrandUpdate where
  name : Option String
  description : Option String
  industry : Option String
  website : Option String
  email : Option String
  phone : Option String
  address : Option String
  city : Option String
  state : Option String
  country : Option String
  postal_code : Option String
deriving DecidableEq, Repr

/-- Sanitizers of the brand update validation chain (App.js:982-988):
name, description, industry and phone are trimmed in place.  The isURL
and isEmail format checks on website and email only gate a 400 answer and
are abstracted as passing, which can only enlarge the set of successful
calls every theorem below quantifies over. -/
def brandUpdateSanitize (p : BrandUpdate) : BrandUpdate :=
  { p with name := trimOpt p.name, description := trimOpt p.description,
           industry := trimOpt p.industry, phone := trimOpt p.phone }

/-- Validation of the brand update chain that can reject: a provided name
must be nonempty after trimming. -/
def brandUpdateValid (p : BrandUpdate) : Bool :=
  match p.name with
  | some s => decide (1 ≤ (strTrim s).length)
  | none => true

/-- The fixed field array the route builds from the request body
(App.js:1014): name, description, industry, website, email, phone,
address, city, state — nine request-body fields, not the merged row. -/
def scoreFields (p : BrandUpdate) : List (Option String) :=
  [p.name, p.description, p.industry, p.website, p.email, p.phone,
   p.address, p.city, p.state]

/-- Completion score of the route (App.js:1014-1016):
`Math.round(completedFields / fields.length * 100)` where a field counts
when truthy with nonempty trim. -/
def completionScore (p : BrandUpdate) : Nat :=
  jsRoundPct ((scoreFields p).filter optFilled).length (scoreFields p).length

/-- COALESCE merge of the brand UPDATE statement (App.js:1018-1035),
applied to one brand row together with the precomputed score. -/
def applyBrandUpdate (b : Brand) (p : BrandUpdate) (score : Nat) : Brand :=
  { b with name := p.name.getD b.name,
           description := coalesce p.description b.description,
           industry := coalesce p.industry b.industry,
           website := coalesce p.website b.website,
           email := coalesce p.email b.email,
           phone := coalesce p.phone b.phone,
           address := coalesce p.address b.address,
           city := coalesce p.city b.city,
           state := coalesce p.state b.state,
           country := coalesce p.country b.country,
           postal_code := coalesce p.postal_code b.postal_code,
           profile_completion_score := score }

/-- PUT /api/brands/:id (App.js:982-1053): ownership gate, then the UPDATE
with the request-body completion score. -/
def updateBrand (db : DB) (userId brandId : Nat) (p0 : BrandUpdate) :
    (ErrResp ⊕ Brand) × DB :=
  let p := brandUpdateSanitize p0
  if !brandUpdateValid p then
    (Sum.inl ⟨400, "Validation failed", none⟩, db)
  else
    match (db.brands.filter (fun b => b.id == brandId)).head? with
    | none => (Sum.inl ⟨404, "Brand not found", none⟩, db)
    | some b =>
      if b.owner_id == userId then
        (Sum.inr (applyBrandUpdate b p (completionScore p)),
         { db with
           brands := db.brands.map
             (fun x => if x.id == brandId then applyBrandUpdate x p (completionScore p) else x),
           activity := db.activity ++ [⟨userId, "BRAND_UPDATED"⟩] })
      else
        (Sum.inl ⟨403, "Unauthorized to edit this brand", none⟩, db)

/-- ORDER BY is_featured DESC, created_at DESC on asset rows
(App.js:1184): `a` sorts no later than `b`. -/
def assetBefore (a b : Asset) : Prop :=
  (a.is_featured = b.is_featured ∧ b.created_at ≤ a.created_at) ∨
  (a.is_featured = true ∧ b.is_featured = false)

instance : DecidableRel assetBefore := fun a b =>
  inferInstanceAs (Decidable ((a.is_featured = b.is_featured ∧ b.created_at ≤ a.created_at) ∨
    (a.is_featured = true ∧ b.is_featured = false)))

/-- GET /api/brands/:brandId/assets (App.js:1158-1197): the owner sees
every asset of the brand; a non-owner sees the public and partners_only
assets when the brand is public, and 403 otherwise.  The route mutates
nothing, so only the response is returned. -/
def listAssets (db : DB) (userId brandId : Nat) : ErrResp ⊕ List Asset :=
  match (db.brands.filter (fun b => b.id == brandId)).head? with
  | none => Sum.inl ⟨404, "Brand not found", none⟩
  | some b =>
    if b.owner_id == userId then
      Sum.inr (List.insertionSort assetBefore
        (db.assets.filter (fun a => a.brand_id == brandId)))
    else if b.is_public then
      Sum.inr (List.insertionSort assetBefore
        (db.assets.filter (fun a => a.brand_id == brandId &&
          (a.permission_level == "public" || a.permission_level == "partners_only"))))
    else
      Sum.inl ⟨403, "Access denied", none⟩

/-- A multipart upload as multer hands it to the route. -/
structure UploadFile where
  filename : String
  originalname : String
  mimetype : String
  size : Nat
deriving DecidableEq, Repr

/-- Asset rows inserted by the upload loop (App.js:1112-1140), one per
file, with consecutive SERIAL ids. -/
def mkAssetRows (brandId uploader : Nat) (description : Option String)
    (category permissionLevel : String) (now : Nat) :
    List UploadFile → Nat → List Asset
  | [], _ => []
  | f :: fs, nid =>
    ⟨nid, brandId, f.filename, f.originalname, f.mimetype, f.size,
     description, category, permissionLevel, false, uploader, now⟩ ::
      mkAssetRows brandId uploader description category permissionLevel now fs (nid + 1)

/-- POST /api/brands/:brandId/assets (App.js:1088-1156): the gate admits
the brand owner or any caller whose role string contains the substring
admin — `req.user.role.includes` is a substring test, not an equality
test against a closed role set. -/
def uploadAssets (db : DB) (user : Identity) (brandId : Nat)
    (files : List UploadFile) (description : Option String)
    (category permissionLevel : Option String) (now : Nat) :
    (ErrResp ⊕ List Asset) × DB :=
  match (db.brands.filter (fun b => b.id == brandId)).head? with
  | none => (Sum.inl ⟨404, "Brand not found", none⟩, db)
  | some b =>
    let isOwner := b.owner_id == user.id
    let isAdmin := strIncludes user.role "admin"
    if !isOwner && !isAdmin then
      (Sum.inl ⟨403, "Unauthorized to upload assets for this brand", none⟩, db)
    else if files.isEmpty then
      (Sum.inl ⟨400, "No files uploaded", none⟩, db)
    else
      let rows := mkAssetRows brandId user.id (jsOrNull description)
        (jsDefault category "general") (jsDefault permissionLevel "partners_only")
        now files db.nextAssetId
      (Sum.inr rows,
       { db with assets := db.assets ++ rows,
                 nextAssetId := db.nextAssetId + files.length,
                 activity := db.activity ++
                   files.map (fun _ => ⟨user.id, "ASSET_UPLOADED"⟩) })

/-- DELETE /api/brands/:brandId/assets/:assetId (App.js:1199-1242): the
lookup joins brands for the owner check, then deletes the row. -/
def deleteAsset (db : DB) (userId brandId assetId : Nat) :
    (ErrResp ⊕ Unit) × DB :=
  match (db.assets.filter (fun a => a.id == assetId && a.brand_id == brandId)).head? with
  | none => (Sum.inl ⟨404, "Asset not found", none⟩, db)
  | some a =>
    match (db.brands.filter (fun b => b.id == a.brand_id)).head? with
    | none => (Sum.inl ⟨404, "Asset not found", none⟩, db)
    | some b =>
      if b.owner_id == userId then
        (Sum.inr (),
         { db with assets := db.assets.filter (fun x => !(x.id == assetId)),
                   activity := db.activity ++ [⟨userId, "ASSET_DELETED"⟩] })
      else
        (Sum.inl ⟨403, "Unauthorized to delete this asset", none⟩, db)

end Rollodex

namespace Rollodex

/-- Legal values of the relationship status column (App.js:1371). -/
def statusValues : List String := ["prospective", "pending", "active", "inactive"]

/-- Legal values of the relationship priority column (App.js:1374). -/
def priorityValues : List String := ["low", "normal", "high"]

/-- Request body of POST /api/relationships. -/
structure RelInput where
  brandId : Nat
  status : String
  partnershipType : Option String
  notes : Option String
  priority : Option String
deriving DecidableEq, Repr

/-- Validation chain of the create route (App.js:1369-1374). -/
def relInputValid (inp : RelInput) : Bool :=
  statusValues.contains inp.status &&
  (match inp.priority with
   | some p => priorityValues.contains p
   | none => true)

/-- The row the create route INSERTs (App.js:1403-1406): the caller is
recorded as retailer_id and created_by, priority defaults to normal. -/
def newRelRow (db : DB) (user : Identity) (inp : RelInput) (now : Nat) : RelRow :=
  { id := db.nextRelId, brand_id := inp.brandId, retailer_id := user.id,
    status := inp.status, partnership_type := trimOpt inp.partnershipType,
    started_date := none, notes := trimOpt inp.notes,
    priority := inp.priority.getD "normal", created_by := user.id,
    updated_at := now }

/-- POST /api/relationships (App.js:1369-1427): brand must exist and be
public, the (brand, caller) pair must be new; the new row records the
caller as retailer_id and created_by.  No role or company-type check
appears anywhere in the route. -/
def createRelationship (db : DB) (user : Identity) (inp : RelInput)
    (now : Nat) : (ErrResp ⊕ RelRow) × DB :=
  if !relInputValid inp then
    (Sum.inl ⟨400, "Validation failed", none⟩, db)
  else if !(db.brands.any (fun b => b.id == inp.brandId && b.is_public)) then
    (Sum.inl ⟨404, "Brand not found or not accessible", none⟩, db)
  else if db.relationships.any
      (fun r => r.brand_id == inp.brandId && r.retailer_id == user.id) then
    (Sum.inl ⟨400, "Relationship already exists", none⟩, db)
  else
    (Sum.inr (newRelRow db user inp now),
     { db with relationships := db.relationships ++ [newRelRow db user inp now],
               nextRelId := db.nextRelId + 1,
               activity := db.activity ++ [⟨user.id, "RELATIONSHIP_CREATED"⟩] })

/-- Request body of PUT /api/relationships/:id. -/
structure RelUpdate where
  status : Option String
  partnershipType : Option String
  notes : Option String
  priority : Option String
  startedDate : Option Nat
deriving DecidableEq, Repr

/-- Validation chain of the update route (App.js:1429-1433). -/
def relUpdateValid (p : RelUpdate) : Bool :=
  (match p.status with
   | some s => statusValues.contains s
   | none => true) &&
  (match p.priority with
   | some s => priorityValues.contains s
   | none => true)

/-- COALESCE merge of the relationship UPDATE (App.js:1458-1468), applied
to one row; ids are never touched. -/
def applyRelUpdate (r : RelRow) (p : RelUpdate) (now : Nat) : RelRow :=
  { r with status := p.status.getD r.status,
           partnership_type := coalesce (trimOpt p.partnershipType) r.partnership_type,
           notes := coalesce (trimOpt p.notes) r.notes,
           priority := p.priority.getD r.priority,
           started_date := coalesce p.startedDate r.started_date,
           updated_at := now }

/-- PUT /api/relationships/:id (App.js:1429-1486): only the owning
retailer side may update. -/
def updateRelationship (db : DB) (user : Identity) (relId : Nat)
    (p : RelUpdate) (now : Nat) : (ErrResp ⊕ RelRow) × DB :=
  if !relUpdateValid p then
    (Sum.inl ⟨400, "Validation failed", none⟩, db)
  else
    match (db.relationships.filter
        (fun r => r.id == relId && r.retailer_id == user.id)).head? with
    | none => (Sum.inl ⟨404, "Relationship not found or access denied", none⟩, db)
    | some r =>
      (Sum.inr (applyRelUpdate r p now),
       { db with
         relationships := db.relationships.map
           (fun x => if x.id == relId then applyRelUpdate x p now else x),
         activity := db.activity ++ [⟨user.id, "RELATIONSHIP_UPDATED"⟩] })

/-- DELETE /api/relationships/:id (App.js:1488-1517): same ownership
check, then a hard delete of the row. -/
def deleteRelationship (db : DB) (user : Identity) (relId : Nat) :
    (ErrResp ⊕ Unit) × DB :=
  match (db.relationships.filter
      (fun r => r.id == relId && r.retailer_id == user.id)).head? with
  | none => (Sum.inl ⟨404, "Relationship not found or access denied", none⟩, db)
  | some _ =>
    (Sum.inr (),
     { db with relationships := db.relationships.filter (fun x => !(x.id == relId)),
               activity := db.activity ++ [⟨user.id, "RELATIONSHIP_DELETED"⟩] })

/-- ORDER BY r.priority DESC, r.updated_at DESC comparator of both list
branches (App.js:1340, 1353): `a` sorts no later than `b` under the SQL
string order on the VARCHAR priority column. -/
def relBefore (a b : RelRow) : Prop :=
  sqlStrLt b.priority a.priority = true ∨
  (a.priority = b.priority ∧ b.updated_at ≤ a.updated_at)

instance : DecidableRel relBefore := fun a b =>
  inferInstanceAs (Decidable (sqlStrLt b.priority a.priority = true ∨
    (a.priority = b.priority ∧ b.updated_at ≤ a.updated_at)))

/-- GET /api/relationships (App.js:1320-1367): branch on
`req.user.role.includes` applied to the string retailer; the retailer
branch keeps rows of the caller whose brand and brand owner exist (INNER
JOINs), the brand branch keeps rows whose brand is owned by the caller
and whose retailer user exists; both end in ORDER BY r.priority DESC,
r.updated_at DESC. -/
def listRelationships (db : DB) (user : Identity) : List RelRow :=
  if strIncludes user.role "retailer" then
    List.insertionSort relBefore
      (db.relationships.filter (fun r => r.retailer_id == user.id &&
        db.brands.any (fun b => b.id == r.brand_id &&
          db.users.any (fun u => u.id == b.owner_id))))
  else
    List.insertionSort relBefore
      (db.relationships.filter (fun r =>
        db.brands.any (fun b => b.id == r.brand_id && b.owner_id == user.id) &&
        db.users.any (fun u => u.id == r.retailer_id)))

/-- Modelled from the spec: the explicit priority ordinal the spec
requires, high above normal above low. -/
def priorityOrdinal : String → Nat
  | "high" => 2
  | "normal" => 1
  | _ => 0

/-- Modelled from the spec: `a` must sort no later than `b` — priority
ordinal descending, ties broken by updated_at descending. -/
def specRelBefore (a b : RelRow) : Prop :=
  priorityOrdinal b.priority < priorityOrdinal a.priority ∨
  (priorityOrdinal a.priority = priorityOrdinal b.priority ∧
   b.updated_at ≤ a.updated_at)

instance : DecidableRel specRelBefore := fun a b =>
  inferInstanceAs (Decidable (priorityOrdinal b.priority < priorityOrdinal a.priority ∨
    (priorityOrdinal a.priority = priorityOrdinal b.priority ∧
     b.updated_at ≤ a.updated_at)))

/-- A list is ordered as the spec requires when each adjacent pair is. -/
def specOrdered : List RelRow → Bool
  | [] => true
  | [_] => true
  | a :: b :: rest => decide (specRelBefore a b) && specOrdered (b :: rest)

end Rollodex

namespace Rollodex

/-- State after `insertDemoData` (App.js:403-525) on a fresh database:
four users, four public brands, two retailer profiles, three
relationships with distinct (brand, retailer) pairs, notification
preferences for every user, no assets.  Timestamps are modelled as 0 and
the one started date as its digits. -/
def demoDB : DB :=
  { users :=
      [⟨1, "admin@freshmarket.example.com", bcryptHash "password123", "Sarah", "Johnson",
        "retailer_admin", some "Fresh Market Co", some "retailer", some "+1-555-0123",
        some "Head of Procurement", true, true, none⟩,
       ⟨2, "buyer@urbanretail.example.com", bcryptHash "password123", "Michael", "Chen",
        "retailer_buyer", some "Urban Retail", some "retailer", some "+1-555-0456",
        some "Senior Buyer", true, true, none⟩,
       ⟨3, "admin@pureelements.example.com", bcryptHash "password123", "Emma", "Green",
        "brand_admin", some "Pure Elements", some "brand", some "+1-555-0789",
        some "Brand Manager", true, true, none⟩,
       ⟨4, "contact@techfoods.example.com", bcryptHash "password123", "David", "Kim",
        "brand_admin", some "TechFoods Innovation", some "brand", some "+1-555-0321",
        some "Sales Director", true, true, none⟩],
    brands :=
      [⟨1, "Pure Elements",
        some "Organic and natural food products made with sustainable practices and premium ingredients sourced from local farms.",
        some "Natural Foods", some "https://pureelements.com", some "hello@pureelements.com",
        some "+1-555-0789", some "789 Green Valley Road", some "Boulder", some "CO",
        some "USA", some "80301", 87, true, 3⟩,
       ⟨2, "TechFoods Innovation",
        some "Next-generation food technology company creating innovative snacks and beverages powered by AI-driven nutrition science.",
        some "Food Technology", some "https://techfoods.io", some "contact@techfoods.io",
        some "+1-555-0321", some "321 Innovation Drive", some "Austin", some "TX",
        some "USA", some "73301", 78, true, 4⟩,
       ⟨3, "Organic Valley Plus",
        some "Premium organic produce and dairy products from certified sustainable farms",
        some "Organic Foods", some "https://organicvalleyplus.com",
        some "info@organicvalleyplus.com", some "+1-555-1122",
        none, none, none, none, none, 92, true, 3⟩,
       ⟨4, "Craft Beverage Co",
        some "Artisanal sodas and beverages made with natural ingredients and unique flavor profiles",
        some "Beverages", some "https://craftbeverage.co", some "hello@craftbeverage.co",
        some "+1-555-3344", none, none, none, none, none, 85, true, 4⟩],
    retailers :=
      [⟨1, "Fresh Market Co",
        some "Premium grocery chain specializing in fresh, organic, and locally sourced products with 50+ locations", 1⟩,
       ⟨2, "Urban Retail",
        some "Modern retail chain focused on emerging brands and innovative products", 2⟩],
    notifPrefUsers := [1, 2, 3, 4],
    relationships :=
      [⟨1, 1, 1, "active", some "Preferred Vendor", some 20230815,
        some "Excellent partnership with consistent quality and delivery. One of our top-performing organic brands.",
        "high", 1, 0⟩,
       ⟨2, 2, 2, "prospective", some "New Vendor Evaluation", none,
        some "Promising new brand with innovative products and strong market potential",
        "high", 2, 0⟩,
       ⟨3, 3, 1, "pending", some "Standard Vendor", none,
        some "Under consideration for expansion into premium organic lines",
        "normal", 1, 0⟩],
    assets := [],
    activity := [],
    nextUserId := 5,
    nextBrandId := 5,
    nextRetailerId := 3,
    nextRelId := 4,
    nextAssetId := 1 }

/-- Database states reachable from server start — the fresh schema or the
demo-seeded state — closed under every state-mutating route modelled
above, over all request data. -/
inductive Reachable : DB → Prop
  | fresh : Reachable emptyDB
  | demo : Reachable demoDB
  | login (db : DB) (e p : String) (env : Option String) (now : Nat) :
      Reachable db → Reachable (login db e p env now).2
  | register (db : DB) (inp : RegisterInput) (ins : RegStep → Bool)
      (env : Option String) (now : Nat) :
      Reachable db → Reachable (register db inp ins env now).2
  | updateProfile (db : DB) (userId : Nat) (p : ProfileUpdate) :
      Reachable db → Reachable (updateProfile db userId p).2
  | updateBrand (db : DB) (userId brandId : Nat) (p : BrandUpdate) :
      Reachable db → Reachable (updateBrand db userId brandId p).2
  | uploadAssets (db : DB) (user : Identity) (brandId : Nat)
      (files : List UploadFile) (description : Option String)
      (category permissionLevel : Option String) (now : Nat) :
      Reachable db →
      Reachable (uploadAssets db user brandId files description category permissionLevel now).2
  | deleteAsset (db : DB) (userId brandId assetId : Nat) :
      Reachable db → Reachable (deleteAsset db userId brandId assetId).2
  | createRelationship (db : DB) (user : Identity) (inp : RelInput) (now : Nat) :
      Reachable db → Reachable (createRelationship db user inp now).2
  | updateRelationship (db : DB) (user : Identity) (relId : Nat)
      (p : RelUpdate) (now : Nat) :
      Reachable db → Reachable (updateRelationship db user relId p now).2
  | deleteRelationship (db : DB) (user : Identity) (relId : Nat) :
      Reachable db → Reachable (deleteRelationship db user relId).2

/-- Relationship-table health: row ids are pairwise distinct and distinct
from unissued SERIAL values, the (brand_id, retailer_id) pairs are
pairwise distinct, and every row points at an existing public brand. -/
def RelInv (db : DB) : Prop :=
  List.Pairwise
    (fun a b => a.id ≠ b.id ∧
      ¬(a.brand_id = b.brand_id ∧ a.retailer_id = b.retailer_id))
    db.relationships ∧
  (∀ r ∈ db.relationships, r.id < db.nextRelId) ∧
  (∀ r ∈ db.relationships, ∃ b ∈ db.brands, b.id = r.brand_id ∧ b.is_public = true)

end Rollodex

namespace Rollodex

theorem relInv_of_fields (db db' : DB)
    (hr : db'.relationships = db.relationships)
    (hn : db'.nextRelId = db.nextRelId)
    (hb : ∀ b ∈ db.brands, ∃ b' ∈ db'.brands, b'.id = b.id ∧ b'.is_public = b.is_public)
    (h : RelInv db) : RelInv db' := by
  obtain ⟨h1, h2, h3⟩ := h
  refine ⟨hr ▸ h1, ?_, ?_⟩
  · intro r hrm
    rw [hr] at hrm
    rw [hn]
    exact h2 r hrm
  · intro r hrm
    rw [hr] at hrm
    obtain ⟨b, hbm, hid, hpub⟩ := h3 r hrm
    obtain ⟨b', hbm', hid', hpub'⟩ := hb b hbm
    exact ⟨b', hbm', by rw [hid', hid], by rw [hpub', hpub]⟩

theorem relInv_login (db : DB) (e p : String) (env : Option String) (now : Nat)
    (h : RelInv db) : RelInv (login db e p env now).2 := by
  unfold login
  repeat' split
  all_goals exact h

theorem relInv_register (db : DB) (inp : RegisterInput) (ins : RegStep → Bool)
    (env : Option String) (now : Nat) (h : RelInv db) :
    RelInv (register db inp ins env now).2 := by
  unfold register
  repeat' split
  all_goals
    refine relInv_of_fields db _ rfl rfl ?_ h
  all_goals intro b hb
  all_goals first
    | exact ⟨b, hb, rfl, rfl⟩
    | exact ⟨b, List.mem_append_left _ hb, rfl, rfl⟩

theorem relInv_updateProfile (db : DB) (userId : Nat) (p : ProfileUpdate)
    (h : RelInv db) : RelInv (updateProfile db userId p).2 := by
  unfold updateProfile
  repeat' split
  all_goals exact h

theorem relInv_updateBrand (db : DB) (userId brandId : Nat) (p : BrandUpdate)
    (h : RelInv db) : RelInv (updateBrand db userId brandId p).2 := by
  unfold updateBrand
  dsimp only
  repeat' split
  all_goals refine relInv_of_fields db _ rfl rfl ?_ h
  all_goals intro b hb
  all_goals first
    | exact ⟨b, hb, rfl, rfl⟩
    | (refine ⟨_, List.mem_map_of_mem _ hb, ?_, ?_⟩ <;> (split <;> rfl))

theorem relInv_uploadAssets (db : DB) (user : Identity) (brandId : Nat)
    (files : List UploadFile) (description : Option String)
    (category permissionLevel : Option String) (now : Nat) (h : RelInv db) :
    RelInv (uploadAssets db user brandId files description category permissionLevel now).2 := by
  unfold uploadAssets
  dsimp only
  repeat' split
  all_goals exact h

theorem relInv_deleteAsset (db : DB) (userId brandId assetId : Nat)
    (h : RelInv db) : RelInv (deleteAsset db userId brandId assetId).2 := by
  unfold deleteAsset
  repeat' split
  all_goals exact h

theorem relInv_createRelationship (db : DB) (user : Identity) (inp : RelInput)
    (now : Nat) (h : RelInv db) : RelInv (createRelationship db user inp now).2 := by
  unfold createRelationship
  split
  · exact h
  split
  · exact h
  split
  · exact h
  rename_i hval hbrand hdup
  obtain ⟨h1, h2, h3⟩ := h
  simp only [Bool.not_eq_true, List.any_eq_false, Bool.and_eq_true, beq_iff_eq,
    Bool.not_eq_eq_eq_not, Bool.not_true, List.any_eq_true] at hbrand hdup
  push_neg at hbrand hdup
  refine ⟨?_, ?_, ?_⟩
  · rw [List.pairwise_append]
    refine ⟨h1, List.pairwise_singleton _ _, ?_⟩
    intro a ha b hb
    rw [List.mem_singleton] at hb
    subst hb
    constructor
    · exact Nat.ne_of_lt (h2 a ha)
    · intro hpair
      first
      | exact hdup a ha hpair
      | exact hdup a ha hpair.1 hpair.2
  · intro r hr
    rcases List.mem_append.mp hr with hold | hnew
    · exact Nat.lt_succ_of_lt (h2 r hold)
    · rw [List.mem_singleton] at hnew
      subst hnew
      exact Nat.lt_succ_self _
  · intro r hr
    rcases List.mem_append.mp hr with hold | hnew
    · exact h3 r hold
    · rw [List.mem_singleton] at hnew
      subst hnew
      obtain ⟨b, hbm, hbid, hbpub⟩ := hbrand
      exact ⟨b, hbm, hbid, hbpub⟩

theorem relInv_updateRelationship (db : DB) (user : Identity) (relId : Nat)
    (p : RelUpdate) (now : Nat) (h : RelInv db) :
    RelInv (updateRelationship db user relId p now).2 := by
  unfold updateRelationship
  repeat' split
  · exact h
  · exact h
  obtain ⟨h1, h2, h3⟩ := h
  refine ⟨?_, ?_, ?_⟩
  · refine List.Pairwise.map _ ?_ h1
    intro a b hab
    constructor
    · show (if (a.id == relId) = true then applyRelUpdate a p now else a).id ≠
        (if (b.id == relId) = true then applyRelUpdate b p now else b).id
      split <;> split <;> exact hab.1
    · show ¬((if (a.id == relId) = true then applyRelUpdate a p now else a).brand_id =
          (if (b.id == relId) = true then applyRelUpdate b p now else b).brand_id ∧
        (if (a.id == relId) = true then applyRelUpdate a p now else a).retailer_id =
          (if (b.id == relId) = true then applyRelUpdate b p now else b).retailer_id)
      split <;> split <;> exact hab.2
  · intro r hr
    obtain ⟨x, hx, hgx⟩ := List.mem_map.mp hr
    have hid : r.id = x.id := by
      rw [← hgx]; split <;> rfl
    rw [hid]
    exact h2 x hx
  · intro r hr
    obtain ⟨x, hx, hgx⟩ := List.mem_map.mp hr
    have hid : r.brand_id = x.brand_id := by
      rw [← hgx]; split <;> rfl
    rw [hid]
    exact h3 x hx

theorem relInv_deleteRelationship (db : DB) (user : Identity) (relId : Nat)
    (h : RelInv db) : RelInv (deleteRelationship db user relId).2 := by
  unfold deleteRelationship
  repeat' split
  · exact h
  obtain ⟨h1, h2, h3⟩ := h
  refine ⟨h1.sublist (List.filter_sublist _), ?_, ?_⟩
  · intro r hr
    exact h2 r (List.mem_of_mem_filter hr)
  · intro r hr
    exact h3 r (List.mem_of_mem_filter hr)

/-- Every reachable database state satisfies the relationship-table
invariants: induction over the reachability relation, one preservation
lemma per mutating route. -/
theorem reachable_relInv (db : DB) (h : Reachable db) : RelInv db := by
  induction h with
  | fresh => exact ⟨by decide, by decide, by decide⟩
  | demo => exact ⟨by decide, by decide, by decide⟩
  | login db e p env now _ ih => exact relInv_login db e p env now ih
  | register db inp ins env now _ ih => exact relInv_register db inp ins env now ih
  | updateProfile db userId p _ ih => exact relInv_updateProfile db userId p ih
  | updateBrand db userId brandId p _ ih => exact relInv_updateBrand db userId brandId p ih
  | uploadAssets db user brandId files dsc cat perm now _ ih =>
      exact relInv_uploadAssets db user brandId files dsc cat perm now ih
  | deleteAsset db userId brandId assetId _ ih =>
      exact relInv_deleteAsset db userId brandId assetId ih
  | createRelationship db user inp now _ ih =>
      exact relInv_createRelationship db user inp now ih
  | updateRelationship db user relId p now _ ih =>
      exact relInv_updateRelationship db user relId p now ih
  | deleteRelationship db user relId _ ih =>
      exact relInv_deleteRelationship db user relId ih

end Rollodex

namespace Rollodex

/-- Token extracted from a successful login response, if any. -/
def loginToken (db : DB) (e p : String) (env : Option String) (now : Nat) :
    Option Token :=
  match (login db e p env now).1 with
  | Sum.inr ok => some ok.token
  | Sum.inl _ => none

/-- C1: the issue/verify round trip is claimed to hold for every signing
configuration, the unset JWT_SECRET fallback included.  It does not: the
login route signs with the fallback literal rollodex-secret-key while the
guard verifies with rollodx-secret-key, so with JWT_SECRET unset a token
issued by a successful demo login is rejected one second later, far
inside the 24-hour expiry; with a configured secret the round trip does
return the same identity fields. -/
theorem c1_roundtrip_fails_under_default_secret :
    verifySecret none ≠ signSecret none ∧
    Option.map (fun t => authenticate t none 1)
      (loginToken demoDB "admin@freshmarket.example.com" "password123" none 0) =
      some none ∧
    Option.map (fun t => authenticate t (some "configured-secret") 1)
      (loginToken demoDB "admin@freshmarket.example.com" "password123"
        (some "configured-secret") 0) =
      some (some ⟨1, "admin@freshmarket.example.com", "retailer_admin",
        some "Fresh Market Co", some "retailer"⟩) :=
  ⟨by decide, by decide, by decide⟩

/-- C2: the claim requires configuration-time enforcement that the
default signing key is never accepted under NODE_ENV=production.  No such
enforcement exists: startup accepts the production configuration with
JWT_SECRET unset, and a login processed under it signs the token with the
insecure default key rollodex-secret-key. -/
theorem c2_no_production_secret_enforcement :
    startupAccepts (some "production") none = true ∧
    signSecret none = "rollodex-secret-key" ∧
    Option.map Token.key
      (loginToken demoDB "admin@freshmarket.example.com" "password123" none 0) =
      some "rollodex-secret-key" :=
  ⟨by decide, by decide, by decide⟩

end Rollodex
namespace Rollodex

/-- C3: the relationship list is claimed to come back ordered by the
explicit priority ordinal high over normal over low.  It does not: both
branches run ORDER BY on the VARCHAR priority column, which is lexical
string order, so for the demo retailer (user 1, retailer branch) and the
demo brand owner (user 3, brand branch) the normal-priority row precedes
the high-priority row, while the ordinal of normal is below that of
high. -/
theorem c3_priority_order_lexical :
    (listRelationships demoDB
        ⟨1, "admin@freshmarket.example.com", "retailer_admin",
          some "Fresh Market Co", some "retailer"⟩).map RelRow.priority =
      ["normal", "high"] ∧
    specOrdered (listRelationships demoDB
        ⟨1, "admin@freshmarket.example.com", "retailer_admin",
          some "Fresh Market Co", some "retailer"⟩) = false ∧
    (listRelationships demoDB
        ⟨3, "admin@pureelements.example.com", "brand_admin",
          some "Pure Elements", some "brand"⟩).map RelRow.priority =
      ["normal", "high"] ∧
    specOrdered (listRelationships demoDB
        ⟨3, "admin@pureelements.example.com", "brand_admin",
          some "Pure Elements", some "brand"⟩) = false ∧
    priorityOrdinal "normal" < priorityOrdinal "high" :=
  ⟨by decide, by decide, by decide, by decide, by decide⟩

/-- Registration request used to exhibit the missing atomicity. -/
def c4Input : RegisterInput :=
  ⟨"founder@acme.com", "hunter2secret", "Ada", "Lovelace", "Acme Snacks", "brand",
   none, none⟩

/-- Failure pattern in which the companion-profile INSERT fails after the
user INSERT succeeded. -/
def c4InsFailProfile : RegStep → Bool
  | RegStep.profileRow => false
  | _ => true

/-- C4: the claim that a failing creation leaves no partial state is
false at a concrete input: registering a brand user on the fresh schema
with the profile INSERT failing answers 500 yet leaves the user row in
place, with no brand profile row and no preferences row. -/
theorem c4_counterexample :
    (register emptyDB c4Input c4InsFailProfile none 0).1 =
      Sum.inl ⟨500, "Registration failed", some "SERVER_ERROR"⟩ ∧
    (register emptyDB c4Input c4InsFailProfile none 0).2.users.any
      (fun u => u.email == "founder@acme.com") = true ∧
    (register emptyDB c4Input c4InsFailProfile none 0).2.brands = [] ∧
    (register emptyDB c4Input c4InsFailProfile none 0).2.notifPrefUsers = [] :=
  ⟨by decide, by decide, by decide, by decide⟩

/-- C4 amended: when all three INSERTs succeed, registration creates the
user row, the companion Brand or Retailer profile row and the
notification-preferences row; but registration is not atomic — when the
profile INSERT fails after the user INSERT succeeded, the route answers
500 and the user row stays while the profile and preferences tables are
untouched (there is no rollback). -/
theorem c4_register_not_atomic (db : DB) (inp : RegisterInput) (ins : RegStep → Bool)
    (env : Option String) (now : Nat)
    (hval : registerValid inp = true)
    (hfresh : db.users.any (fun u => u.email == normalizeEmail inp.email) = false) :
    ((∀ s, ins s = true) →
      (∃ ok, (register db inp ins env now).1 = Sum.inr ok) ∧
      (register db inp ins env now).2.users.any (fun u => u.id == db.nextUserId) = true ∧
      (inp.companyType = "brand" →
        (register db inp ins env now).2.brands.any
          (fun b => b.owner_id == db.nextUserId) = true) ∧
      (inp.companyType = "retailer" →
        (register db inp ins env now).2.retailers.any
          (fun r => r.owner_id == db.nextUserId) = true) ∧
      (register db inp ins env now).2.notifPrefUsers.contains db.nextUserId = true) ∧
    (ins RegStep.userRow = true → ins RegStep.profileRow = false →
      (register db inp ins env now).1 =
        Sum.inl ⟨500, "Registration failed", some "SERVER_ERROR"⟩ ∧
      (register db inp ins env now).2.users.any (fun u => u.id == db.nextUserId) = true ∧
      (register db inp ins env now).2.brands = db.brands ∧
      (register db inp ins env now).2.retailers = db.retailers ∧
      (register db inp ins env now).2.notifPrefUsers = db.notifPrefUsers) := by
  constructor
  · intro hins
    have hu := hins RegStep.userRow
    have hp := hins RegStep.profileRow
    have hn := hins RegStep.prefsRow
    cases hct : (inp.companyType == "retailer")
    · refine ⟨?_, ?_, ?_, ?_, ?_⟩
      · simp [register, hval, hfresh, hu, hp, hn, hct]
      · simp [register, hval, hfresh, hu, hp, hn, hct]
      · intro hb
        simp [register, hval, hfresh, hu, hp, hn, hct]
      · intro hr
        rw [hr] at hct
        simp at hct
      · simp [register, hval, hfresh, hu, hp, hn, hct]
    · refine ⟨?_, ?_, ?_, ?_, ?_⟩
      · simp [register, hval, hfresh, hu, hp, hn, hct]
      · simp [register, hval, hfresh, hu, hp, hn, hct]
      · intro hb
        rw [hb] at hct
        simp at hct
      · intro hr
        simp [register, hval, hfresh, hu, hp, hn, hct]
      · simp [register, hval, hfresh, hu, hp, hn, hct]
  · intro hu hp
    refine ⟨?_, ?_, ?_, ?_, ?_⟩ <;> simp [register, hval, hfresh, hu, hp]


/-- Witness for the amended C4 theorem: both branches instantiated on the
fresh schema with the registration input above. -/
theorem c4_register_not_atomic_witness :
    ((∃ ok, (register emptyDB c4Input (fun _ => true) none 0).1 = Sum.inr ok) ∧
      (register emptyDB c4Input (fun _ => true) none 0).2.notifPrefUsers.contains
        emptyDB.nextUserId = true) ∧
    ((register emptyDB c4Input c4InsFailProfile none 0).2.brands = emptyDB.brands ∧
      (register emptyDB c4Input c4InsFailProfile none 0).2.users.any
        (fun u => u.id == emptyDB.nextUserId) = true) := by
  have h1 := c4_register_not_atomic emptyDB c4Input (fun _ => true) none 0
    (by decide) (by decide)
  have h2 := c4_register_not_atomic emptyDB c4Input c4InsFailProfile none 0
    (by decide) (by decide)
  have h1s := h1.1 (fun s => rfl)
  have h2s := h2.2 (by decide) (by decide)
  exact ⟨⟨h1s.1, h1s.2.2.2.2⟩, h2s.2.2.1, h2s.2.1⟩

end Rollodex
namespace Rollodex

/-- C5: in every reachable state the (brand_id, retailer_id) pairs of the
relationship table are pairwise distinct, and a well-formed create call
for a pair that already has a row answers 400 Relationship already exists
and returns the state unchanged. -/
theorem c5_unique_pair_and_duplicate_rejected (db : DB) (h : Reachable db) :
    List.Pairwise
      (fun a b => ¬(a.brand_id = b.brand_id ∧ a.retailer_id = b.retailer_id))
      db.relationships ∧
    ∀ (user : Identity) (inp : RelInput) (now : Nat),
      relInputValid inp = true →
      (∃ r ∈ db.relationships,
        r.brand_id = inp.brandId ∧ r.retailer_id = user.id) →
      createRelationship db user inp now =
        (Sum.inl ⟨400, "Relationship already exists", none⟩, db) := by
  obtain ⟨h1, h2, h3⟩ := reachable_relInv db h
  constructor
  · exact h1.imp (fun hab => hab.2)
  · rintro user inp now hval ⟨r, hr, hbid, hrid⟩
    have hbrand : db.brands.any (fun b => b.id == inp.brandId && b.is_public) = true := by
      obtain ⟨b, hb, hbid2, hbpub⟩ := h3 r hr
      refine List.any_eq_true.mpr ⟨b, hb, ?_⟩
      simp [hbid2, hbid, hbpub]
    have hdup : db.relationships.any
        (fun x => x.brand_id == inp.brandId && x.retailer_id == user.id) = true := by
      refine List.any_eq_true.mpr ⟨r, hr, ?_⟩
      simp [hbid, hrid]
    simp [createRelationship, hval, hbrand, hdup]

/-- Witness for the C5 theorem: the demo state is reachable, and a second
create for the existing demo pair of brand 1 and retailer user 1 is
rejected with the state unchanged. -/
theorem c5_unique_pair_witness :
    createRelationship demoDB ⟨1, "admin@freshmarket.example.com", "retailer_admin",
        some "Fresh Market Co", some "retailer"⟩
      ⟨1, "prospective", none, none, none⟩ 5 =
      (Sum.inl ⟨400, "Relationship already exists", none⟩, demoDB) := by
  have h := c5_unique_pair_and_duplicate_rejected demoDB Reachable.demo
  refine h.2 _ _ 5 (by decide) ?_
  refine ⟨⟨1, 1, 1, "active", some "Preferred Vendor", some 20230815,
    some "Excellent partnership with consistent quality and delivery. One of our top-performing organic brands.",
    "high", 1, 0⟩, ?_, rfl, rfl⟩
  decide

/-- C6: a login with the wrong password for an existing active user and a
login with an email that matches no active user produce the same
response: status 401 with the identical Invalid credentials body, so the
two failure causes are indistinguishable to the client. -/
theorem c6_login_failures_indistinguishable (db : DB) (e1 p1 e2 p2 : String)
    (env : Option String) (now1 now2 : Nat) (u : User)
    (hv1 : validEmail e1 = true) (hl1 : 1 ≤ p1.length)
    (hv2 : validEmail e2 = true) (hl2 : 1 ≤ p2.length)
    (hu : (db.users.filter
      (fun v => v.email == normalizeEmail e1 && v.is_active)).head? = some u)
    (hpw : bcryptCompare p1 u.password_hash = false)
    (hnone : (db.users.filter
      (fun v => v.email == normalizeEmail e2 && v.is_active)).head? = none) :
    (login db e1 p1 env now1).1 = (login db e2 p2 env now2).1 ∧
    (login db e1 p1 env now1).1 =
      Sum.inl ⟨401, "Invalid credentials", some "INVALID_CREDENTIALS"⟩ := by
  constructor <;> simp [login, hv1, hl1, hv2, hl2, hu, hpw, hnone]

/-- Witness for the C6 theorem: on the demo state, a wrong password for
the existing retailer account and a login for an unknown address yield
the same 401 response. -/
theorem c6_login_failures_witness :
    (login demoDB "admin@freshmarket.example.com" "wrongpassword" none 3).1 =
      (login demoDB "ghost@nowhere.example.com" "password123" none 4).1 ∧
    (login demoDB "admin@freshmarket.example.com" "wrongpassword" none 3).1 =
      Sum.inl ⟨401, "Invalid credentials", some "INVALID_CREDENTIALS"⟩ := by
  exact c6_login_failures_indistinguishable demoDB
    "admin@freshmarket.example.com" "wrongpassword"
    "ghost@nowhere.example.com" "password123" none 3 4
    ⟨1, "admin@freshmarket.example.com", bcryptHash "password123", "Sarah", "Johnson",
      "retailer_admin", some "Fresh Market Co", some "retailer", some "+1-555-0123",
      some "Head of Procurement", true, true, none⟩
    (by decide) (by decide) (by decide) (by decide) (by decide) (by decide) (by decide)

end Rollodex
namespace Rollodex

/-- Success payload of a brand route response, when present. -/
def brandOf : ErrResp ⊕ Brand → Option Brand
  | Sum.inr b => some b
  | Sum.inl _ => none

/-- Modelled from the spec: the completion score the claim specifies,
round(100 x filledCount / 9) with filledCount counting the non-empty
tracked fields of the brand row after the update. -/
def specBrandScore (b : Brand) : Nat :=
  jsRoundPct (([some b.name, b.description, b.industry, b.website, b.email,
    b.phone, b.address, b.city, b.state].filter optFilled).length) 9

/-- Brand fixture: stored name Acme, every other tracked field empty. -/
def c7Brand : Brand :=
  { id := 42, name := "Acme", description := none, industry := none,
    website := none, email := none, phone := none, address := none,
    city := none, state := none, country := none, postal_code := none,
    profile_completion_score := 25, is_public := true, owner_id := 7 }

/-- Database fixture holding only the brand above. -/
def c7DB : DB := { emptyDB with brands := [c7Brand] }

/-- Update payload providing only a description. -/
def c7Payload : BrandUpdate :=
  ⟨none, some "Premium organic snacks", none, none, none, none, none, none, none,
   none, none⟩

/-- Update payload providing only a name. -/
def c7NameOnly : BrandUpdate :=
  ⟨some "Solo", none, none, none, none, none, none, none, none, none, none⟩

/-- C7: the claim computes the stored score from the brand fields after
the update.  The route computes it from the request body alone
(App.js:1014-1016): updating the Acme brand (stored name non-empty) with
only a description stores score 11 — one request field filled — while the
merged row has name and description filled, for which the claim
prescribes 22. -/
theorem c7_counterexample :
    Option.map Brand.profile_completion_score
      (brandOf (updateBrand c7DB 7 42 c7Payload).1) = some 11 ∧
    Option.map specBrandScore
      (brandOf (updateBrand c7DB 7 42 c7Payload).1) = some 22 :=
  ⟨by decide, by decide⟩

/-- C7 amended: on every successful owner update the stored score is
round(100 x filledCount / 9) where filledCount counts the non-empty
fields among the nine tracked request-body fields of this very request;
fields kept from the stored row through COALESCE do not count. -/
theorem c7_score_counts_request_fields (db : DB) (userId brandId : Nat)
    (p : BrandUpdate) (b : Brand)
    (hval : brandUpdateValid (brandUpdateSanitize p) = true)
    (hfind : (db.brands.filter (fun x => x.id == brandId)).head? = some b)
    (howner : b.owner_id = userId) :
    (updateBrand db userId brandId p).1 =
      Sum.inr (applyBrandUpdate b (brandUpdateSanitize p)
        (jsRoundPct ((scoreFields (brandUpdateSanitize p)).filter optFilled).length 9)) := by
  simp [updateBrand, hval, hfind, howner, completionScore, scoreFields]

/-- Witness for the amended C7 theorem: a name-only update of the blank
fixture brand succeeds and stores score 11 = round(100/9), the value the
spec names for a brand whose only filled tracked field is name. -/
theorem c7_score_counts_request_fields_witness :
    (updateBrand c7DB 7 42 c7NameOnly).1 =
      Sum.inr (applyBrandUpdate c7Brand (brandUpdateSanitize c7NameOnly)
        (jsRoundPct ((scoreFields (brandUpdateSanitize c7NameOnly)).filter optFilled).length 9)) ∧
    Option.map Brand.profile_completion_score
      (brandOf (updateBrand c7DB 7 42 c7NameOnly).1) = some 11 :=
  ⟨c7_score_counts_request_fields c7DB 7 42 c7NameOnly c7Brand
    (by decide) (by decide) (by decide), by decide⟩

end Rollodex
namespace Rollodex

/-- C8: visibility of the asset list of an existing brand — the owner
receives every asset of the brand, a non-owner of a public brand exactly
the public and partners_only assets, and a non-owner of a private brand
is rejected with 403. -/
theorem c8_asset_list_visibility (db : DB) (userId brandId : Nat) (b : Brand)
    (hfind : (db.brands.filter (fun x => x.id == brandId)).head? = some b) :
    (b.owner_id = userId →
      ∃ l, listAssets db userId brandId = Sum.inr l ∧
        ∀ a : Asset, a ∈ l ↔ a ∈ db.assets ∧ a.brand_id = brandId) ∧
    (b.owner_id ≠ userId → b.is_public = true →
      ∃ l, listAssets db userId brandId = Sum.inr l ∧
        ∀ a : Asset, a ∈ l ↔ a ∈ db.assets ∧ a.brand_id = brandId ∧
          (a.permission_level = "public" ∨ a.permission_level = "partners_only")) ∧
    (b.owner_id ≠ userId → b.is_public = false →
      listAssets db userId brandId = Sum.inl ⟨403, "Access denied", none⟩) := by
  refine ⟨?_, ?_, ?_⟩
  · intro howner
    refine ⟨List.insertionSort assetBefore
      (db.assets.filter (fun a => a.brand_id == brandId)), ?_, ?_⟩
    · simp [listAssets, hfind, howner]
    · intro a
      rw [List.mem_insertionSort, List.mem_filter]
      simp
  · intro howner hpub
    refine ⟨List.insertionSort assetBefore
      (db.assets.filter (fun a => a.brand_id == brandId &&
        (a.permission_level == "public" || a.permission_level == "partners_only"))), ?_, ?_⟩
    · simp only [listAssets, hfind]
      rw [if_neg (by simp [howner]), if_pos hpub]
    · intro a
      rw [List.mem_insertionSort, List.mem_filter]
      simp [and_assoc]
  · intro howner hpriv
    simp only [listAssets, hfind]
    rw [if_neg (by simp [howner]), if_neg (by simp [hpriv])]

end Rollodex

namespace Rollodex

/-- Public brand fixture owned by user 1. -/
def c8PubBrand : Brand :=
  { id := 9, name := "Glasshouse", description := none, industry := none,
    website := none, email := none, phone := none, address := none,
    city := none, state := none, country := none, postal_code := none,
    profile_completion_score := 11, is_public := true, owner_id := 1 }

/-- Private brand fixture owned by user 3. -/
def c8PrivBrand : Brand :=
  { id := 10, name := "Backroom", description := none, industry := none,
    website := none, email := none, phone := none, address := none,
    city := none, state := none, country := none, postal_code := none,
    profile_completion_score := 11, is_public := false, owner_id := 3 }

/-- Database fixture with the two brands and assets of every permission
level under the public one. -/
def c8DB : DB :=
  { emptyDB with
    brands := [c8PubBrand, c8PrivBrand],
    assets :=
      [⟨1, 9, "a-1.png", "a.png", "image/png", 10, none, "general", "public", false, 1, 1⟩,
       ⟨2, 9, "b-2.pdf", "b.pdf", "application/pdf", 20, none, "general", "partners_only", false, 1, 2⟩,
       ⟨3, 9, "c-3.zip", "c.zip", "application/zip", 30, none, "general", "private", true, 1, 3⟩,
       ⟨4, 10, "d-4.png", "d.png", "image/png", 40, none, "general", "public", false, 3, 4⟩],
    nextAssetId := 5 }

/-- Witness for the C8 theorem: on the fixture, the owner of the public
brand, a stranger to the public brand, and a stranger to the private
brand each get the three prescribed outcomes. -/
theorem c8_asset_list_visibility_witness :
    (∃ l, listAssets c8DB 1 9 = Sum.inr l ∧
      ∀ a : Asset, a ∈ l ↔ a ∈ c8DB.assets ∧ a.brand_id = 9) ∧
    (∃ l, listAssets c8DB 2 9 = Sum.inr l ∧
      ∀ a : Asset, a ∈ l ↔ a ∈ c8DB.assets ∧ a.brand_id = 9 ∧
        (a.permission_level = "public" ∨ a.permission_level = "partners_only")) ∧
    listAssets c8DB 2 10 = Sum.inl ⟨403, "Access denied", none⟩ := by
  have h9 := c8_asset_list_visibility c8DB 1 9 c8PubBrand (by decide)
  have h9b := c8_asset_list_visibility c8DB 2 9 c8PubBrand (by decide)
  have h10 := c8_asset_list_visibility c8DB 2 10 c8PrivBrand (by decide)
  exact ⟨h9.1 rfl, h9b.2.1 (by decide) rfl, h10.2.2 (by decide) rfl⟩

/-- One uploaded file as multer presents it. -/
def c9File : UploadFile := ⟨"files-12345.png", "logo.png", "image/png", 2048⟩

/-- C9: for an existing brand, every caller whose role string contains
the substring admin passes the upload authorization gate — the request
can only fail with the 400 no-files answer or succeed, never with the 403
of the gate — because the gate tests `req.user.role.includes` rather
than a closed role set, with no ownership or relationship condition. -/
theorem c9_admin_substring_passes_upload_gate (db : DB) (user : Identity)
    (brandId : Nat) (files : List UploadFile) (description : Option String)
    (category permissionLevel : Option String) (now : Nat) (b : Brand)
    (hfind : (db.brands.filter (fun x => x.id == brandId)).head? = some b)
    (hadmin : strIncludes user.role "admin" = true) :
    (uploadAssets db user brandId files description category permissionLevel now).1 =
      (if files.isEmpty then Sum.inl ⟨400, "No files uploaded", none⟩
       else Sum.inr (mkAssetRows brandId user.id (jsOrNull description)
         (jsDefault category "general") (jsDefault permissionLevel "partners_only")
         now files db.nextAssetId)) ∧
    (uploadAssets db user brandId files description category permissionLevel now).1 ≠
      Sum.inl ⟨403, "Unauthorized to upload assets for this brand", none⟩ := by
  have hmain :
      (uploadAssets db user brandId files description category permissionLevel now).1 =
        (if files.isEmpty then Sum.inl ⟨400, "No files uploaded", none⟩
         else Sum.inr (mkAssetRows brandId user.id (jsOrNull description)
           (jsDefault category "general") (jsDefault permissionLevel "partners_only")
           now files db.nextAssetId)) := by
    simp only [uploadAssets, hfind, hadmin]
    simp
    split <;> rfl
  refine ⟨hmain, ?_⟩
  rw [hmain]
  split <;> simp

/-- Witness for the C9 theorem: user 2 holds role retailer_admin, owns
nothing and has no relationship with the fixture brand 9, yet the upload
is not rejected by the gate and in fact succeeds. -/
theorem c9_admin_substring_witness :
    (uploadAssets c8DB ⟨2, "buyer@urbanretail.example.com", "retailer_admin",
        some "Urban Retail", some "retailer"⟩ 9 [c9File] none none none 7).1 ≠
      Sum.inl ⟨403, "Unauthorized to upload assets for this brand", none⟩ ∧
    (uploadAssets c8DB ⟨2, "buyer@urbanretail.example.com", "retailer_admin",
        some "Urban Retail", some "retailer"⟩ 9 [c9File] none none none 7).1 =
      Sum.inr [⟨5, 9, "files-12345.png", "logo.png", "image/png", 2048, none,
        "general", "partners_only", false, 2, 7⟩] :=
  ⟨(c9_admin_substring_passes_upload_gate c8DB _ 9 [c9File] none none none 7
      c8PubBrand (by decide) (by decide)).2, by decide⟩

/-- C10: relationship creation never consults the caller role or company
type — under the conditions the route itself checks (well-formed body,
existing public brand, fresh pair) it succeeds for every identity and
records the caller as the retailer side of the new row. -/
theorem c10_create_relationship_no_role_check (db : DB) (user : Identity)
    (inp : RelInput) (now : Nat)
    (hval : relInputValid inp = true)
    (hbrand : db.brands.any (fun b => b.id == inp.brandId && b.is_public) = true)
    (hnew : db.relationships.any
      (fun r => r.brand_id == inp.brandId && r.retailer_id == user.id) = false) :
    (createRelationship db user inp now).1 = Sum.inr (newRelRow db user inp now) ∧
    (newRelRow db user inp now).retailer_id = user.id ∧
    (newRelRow db user inp now).brand_id = inp.brandId ∧
    (createRelationship db user inp now).2.relationships =
      db.relationships ++ [newRelRow db user inp now] := by
  refine ⟨?_, rfl, rfl, ?_⟩ <;> simp [createRelationship, hval, hbrand, hnew]

/-- Witness for the C10 theorem: the brand-side demo user Emma (role
brand_admin, company type brand) successfully creates a relationship to
the public demo brand 4 and is recorded as its retailer. -/
theorem c10_create_relationship_witness :
    (createRelationship demoDB ⟨3, "admin@pureelements.example.com", "brand_admin",
        some "Pure Elements", some "brand"⟩ ⟨4, "prospective", none, none, none⟩ 9).1 =
      Sum.inr (newRelRow demoDB ⟨3, "admin@pureelements.example.com", "brand_admin",
        some "Pure Elements", some "brand"⟩ ⟨4, "prospective", none, none, none⟩ 9) ∧
    (newRelRow demoDB ⟨3, "admin@pureelements.example.com", "brand_admin",
        some "Pure Elements", some "brand"⟩ ⟨4, "prospective", none, none, none⟩ 9).retailer_id = 3 := by
  have h := c10_create_relationship_no_role_check demoDB
    ⟨3, "admin@pureelements.example.com", "brand_admin",
      some "Pure Elements", some "brand"⟩
    ⟨4, "prospective", none, none, none⟩ 9 (by decide) (by decide) (by decide)
  exact ⟨h.1, h.2.1⟩

end Rollodex
